import Mathlib

/-!
Verification of the option-strategy payoff and Monte Carlo module
(`futures_optionss.py`) of the `fundamental_stocks` repository.

The Python functions are embedded shallowly:

* `call_payoff`, `put_payoff`, `combined_payoff` — per-leg and combined
  profit/loss, generic over a linear ordered field (instantiated at `ℚ`
  for executable checks and at `ℝ` for the simulation pipeline);
* `make_straddle`, `build_strategy_from_radio` — the strategy builder;
* `simulate_ST` — the GBM terminal-price sampler; numpy's seeded
  standard-normal stream `np.random.seed(seed); np.random.randn(n)` is
  modelled by an explicit family `randn : ℕ → ℕ → ℝ` mapping a seed and a
  draw index to the drawn variate;
* `expected_metrics_via_mc` — the Monte Carlo analytics record;
* `breakevens` — the linear-interpolation breakeven scanner.
-/

/-- One option leg, mirroring the Python dict
`{"type": _, "K": _, "premium": _, "qty": _, "long": _}`. -/
structure Leg (α : Type) where
  type : String
  K : α
  premium : α
  qty : α
  long : Bool
deriving DecidableEq, Repr

variable {α : Type} [LinearOrderedField α]

/-- `call_payoff(S, K, premium, qty, long)`:
`payoff = np.maximum(S - K, 0) - premium; payoff*qty if long else -payoff*qty`. -/
def call_payoff (S K premium qty : α) (long : Bool) : α :=
  let payoff := max (S - K) 0 - premium
  if long then payoff * qty else -payoff * qty

/-- `put_payoff(S, K, premium, qty, long)`:
`payoff = np.maximum(K - S, 0) - premium; payoff*qty if long else -payoff*qty`. -/
def put_payoff (S K premium qty : α) (long : Bool) : α :=
  let payoff := max (K - S) 0 - premium
  if long then payoff * qty else -payoff * qty

/-- The contribution of one leg inside the `combined_payoff` loop:
`call_payoff` when `leg['type'] == 'C'`, otherwise `put_payoff`. -/
def leg_payoff (S : α) (leg : Leg α) : α :=
  if leg.type = "C" then
    call_payoff S leg.K leg.premium leg.qty leg.long
  else
    put_payoff S leg.K leg.premium leg.qty leg.long

/-- `combined_payoff(S, legs)` evaluated at a single price `S`:
`total = 0` then `total += ...` over the legs, i.e. a left fold. -/
def combined_payoff (S : α) (legs : List (Leg α)) : α :=
  legs.foldl (fun total leg => total + leg_payoff S leg) 0

/-- `make_straddle(K, p_call, p_put, qty)`. -/
def make_straddle (K p_call p_put qty : ℚ) : List (Leg ℚ) :=
  [⟨"C", K, p_call, qty, true⟩, ⟨"P", K, p_put, qty, true⟩]

/-- `build_strategy_from_radio(strategy, K, p_call, p_put, qty)`, the
five-branch `if/elif` dispatch returning `(legs, label)`. -/
def build_strategy_from_radio (strategy : String) (K p_call p_put qty : ℚ) :
    List (Leg ℚ) × String :=
  if strategy = "Straddle" then
    (make_straddle K p_call p_put qty, "Long Straddle")
  else if strategy = "Strangle" then
    let Kput := max 1 (K - 400)
    let Kcall := K + 400
    ([⟨"P", Kput, p_put * 0.6, qty, true⟩, ⟨"C", Kcall, p_call * 0.6, qty, true⟩],
      "Long Strangle (" ++ toString Kput ++ "/" ++ toString Kcall ++ ")")
  else if strategy = "IronCondor" then
    ([⟨"P", K - 400, p_put * 0.7, qty, false⟩, ⟨"P", K - 800, p_put * 0.3, qty, true⟩,
      ⟨"C", K + 400, p_call * 0.7, qty, false⟩, ⟨"C", K + 800, p_call * 0.3, qty, true⟩],
      "Iron Condor")
  else if strategy = "BullCallSpread" then
    let width : ℚ := 400
    let K_buy := max 1 (K - 200)
    let K_sell := K_buy + width
    ([⟨"C", K_buy, p_call * 0.9, qty, true⟩, ⟨"C", K_sell, p_call * 0.5, qty, false⟩],
      "Bull Call Spread (" ++ toString K_buy ++ "->" ++ toString K_sell ++ ")")
  else if strategy = "Butterfly" then
    let wing : ℚ := 600
    let K_low := K - wing
    let K_mid := K
    let K_high := K + wing
    ([⟨"C", K_low, p_call * 0.9, qty, true⟩, ⟨"C", K_mid, p_call * 0.7, qty * 2, false⟩,
      ⟨"C", K_high, p_call * 0.9, qty, true⟩],
      "Long Butterfly (" ++ toString K_low ++ "," ++ toString K_mid ++ "," ++ toString K_high ++ ")")
  else
    (make_straddle K p_call p_put qty, "Long Straddle")

/-- `np.sign` on one value: `1` for positive, `-1` for negative, `0` at zero. -/
def sign (x : ℚ) : ℚ :=
  if 0 < x then 1 else if x < 0 then -1 else 0

/-- The root emitted for one bracketing pair in `breakevens`:
`x0` when `y1 - y0 == 0`, else `x0 - y0*(x1-x0)/(y1-y0)`. -/
def be_point (x0 x1 y0 y1 : ℚ) : ℚ :=
  if y1 - y0 = 0 then x0 else x0 - y0 * (x1 - x0) / (y1 - y0)

/-- `breakevens(S, payoff)`: scan adjacent grid points; whenever
`np.diff(np.sign(payoff))` is nonzero emit the interpolated root. -/
def breakevens : List ℚ → List ℚ → List ℚ
  | x0 :: x1 :: xs, y0 :: y1 :: ys =>
      (if sign y1 ≠ sign y0 then [be_point x0 x1 y0 y1] else []) ++
        breakevens (x1 :: xs) (y1 :: ys)
  | _, _ => []

/-- Modelled from the spec: the root (if any) contributed by the adjacent
index pair `(i, i+1)` — `some be` when the sign of the payoff changes
there, with `be = x0 - y0*(x1-x0)/(y1-y0)` (or `x0` when `y1 = y0`),
`none` otherwise. -/
def be_at (S Y : List ℚ) (i : ℕ) : Option ℚ :=
  if sign (Y.getD (i + 1) 0) ≠ sign (Y.getD i 0) then
    some (if Y.getD (i + 1) 0 - Y.getD i 0 = 0 then S.getD i 0
          else S.getD i 0 -
            Y.getD i 0 * (S.getD (i + 1) 0 - S.getD i 0) /
              (Y.getD (i + 1) 0 - Y.getD i 0))
  else none

/-- Modelled from the spec: `findBreakevens` described index-wise — for each
adjacent index pair where the sign of the payoff changes, the
linear-interpolation root, listed in ascending grid order. Used to state
the refinement claim about `breakevens`. -/
def findBreakevens_spec (S Y : List ℚ) : List ℚ :=
  (List.range (Y.length - 1)).filterMap (be_at S Y)

/-- `simulate_ST(S0, mu, sigma, T_days, n_sims, seed)`:
`np.random.seed(seed)` followed by `np.random.randn(n_sims)` is modelled by
the stream `randn seed`, whose `i`-th entry is the `i`-th variate drawn
after seeding with `seed`.  `T = max(T_days, 0)/252.0`; when `T == 0` the
result is `[S0]`, otherwise `S0 * exp(drift + diffusion)` per draw. -/
noncomputable def simulate_ST (randn : ℕ → ℕ → ℝ) (S0 mu sigma T_days : ℝ)
    (n_sims : ℕ) (seed : ℕ) : List ℝ :=
  let T := max T_days 0 / 252
  if T = 0 then [S0]
  else
    let drift := (mu - 0.5 * sigma ^ 2) * T
    (List.range n_sims).map fun i =>
      S0 * Real.exp (drift + sigma * Real.sqrt T * randn seed i)

/-- The sampled payoffs inside `expected_metrics_via_mc`:
`np.array([combined_payoff(np.array([s]), legs)[0] for s in ST])` with
`ST = simulate_ST(S0, mu, sigma, T_days, n_sims=n_sims)` (default seed 42). -/
noncomputable def sim_payoffs (randn : ℕ → ℕ → ℝ) (legs : List (Leg ℝ))
    (S0 mu sigma T_days : ℝ) (n_sims : ℕ) : List ℝ :=
  (simulate_ST randn S0 mu sigma T_days n_sims 42).map fun s => combined_payoff s legs

/-- The four-field analytics record returned by `expected_metrics_via_mc`. -/
structure Metrics where
  ev : ℝ
  prob_profit : ℝ
  median : ℝ
  downside_pct : ℝ

/-- `np.median`: sort, take the middle element (odd length) or the mean of
the two middle elements (even length). -/
noncomputable def listMedian (l : List ℝ) : ℝ :=
  let s := l.mergeSort fun a b => decide (a ≤ b)
  if l.length % 2 = 1 then s.getD (l.length / 2) 0
  else (s.getD (l.length / 2 - 1) 0 + s.getD (l.length / 2) 0) / 2

/-- `expected_metrics_via_mc(legs, S0, mu, sigma, T_days, n_sims)`:
mean, fraction strictly above 0, median, fraction strictly below 0 of the
sampled payoffs. -/
noncomputable def expected_metrics_via_mc (randn : ℕ → ℕ → ℝ)
    (legs : List (Leg ℝ)) (S0 mu sigma T_days : ℝ) (n_sims : ℕ) : Metrics :=
  let payoffs := sim_payoffs randn legs S0 mu sigma T_days n_sims
  { ev := payoffs.sum / payoffs.length
    prob_profit := (payoffs.countP fun x => decide (0 < x)) / payoffs.length
    median := listMedian payoffs
    downside_pct := (payoffs.countP fun x => decide (x < 0)) / payoffs.length }

/-! ### Helper lemmas -/

lemma foldl_payoff_shift (S : α) (legs : List (Leg α)) :
    ∀ a : α, legs.foldl (fun t l => t + leg_payoff S l) a =
      a + legs.foldl (fun t l => t + leg_payoff S l) 0 := by
  induction legs with
  | nil => intro a; simp
  | cons leg legs ih =>
      intro a
      simp only [List.foldl_cons]
      rw [ih (a + leg_payoff S leg), ih (0 + leg_payoff S leg)]
      ring

lemma combined_payoff_cons (S : α) (leg : Leg α) (legs : List (Leg α)) :
    combined_payoff S (leg :: legs) = leg_payoff S leg + combined_payoff S legs := by
  simp only [combined_payoff, List.foldl_cons]
  rw [foldl_payoff_shift S legs (0 + leg_payoff S leg)]
  ring

lemma horizon_zero_iff (T_days : ℝ) : max T_days 0 / 252 = 0 ↔ T_days ≤ 0 := by
  rw [div_eq_zero_iff]
  constructor
  · rintro (h | h)
    · exact max_eq_right_iff.mp h
    · norm_num at h
  · intro h
    exact Or.inl (max_eq_right_iff.mpr h)

lemma getD_map_range {β : Type} (f : ℕ → β) (d : β) (n i : ℕ) (h : i < n) :
    ((List.range n).map f).getD i d = f i := by
  simp [List.getD_eq_getElem?_getD, List.getElem?_map, List.getElem?_range h]

/-! ### Claim theorems -/

/-- C9: for every price `S`, strike `K`, premium `p`, and quantity `q`, the
long and short payoffs of the same call leg are exact negations:
`call_payoff S K p q true = -call_payoff S K p q false`. -/
theorem call_payoff_long_short_neg (S K p q : ℝ) :
    call_payoff S K p q true = -call_payoff S K p q false := by
  simp only [call_payoff, if_true, if_false, Bool.false_eq_true]
  ring

/-- C10: for every strictly negative horizon, `simulate_ST` silently clamps
the horizon to zero and returns the degenerate single-element list `[S0]`,
with no error. -/
theorem simulate_ST_negative_horizon_clamped (randn : ℕ → ℕ → ℝ)
    (S0 mu sigma T_days : ℝ) (n_sims seed : ℕ) (h : T_days < 0) :
    simulate_ST randn S0 mu sigma T_days n_sims seed = [S0] := by
  unfold simulate_ST
  rw [if_pos ((horizon_zero_iff T_days).mpr h.le)]

/-- Witness for C10 at `T_days = -3`. -/
theorem simulate_ST_negative_horizon_clamped_witness :
    (-3 : ℝ) < 0 ∧ simulate_ST (fun _ _ => 0) 100 0 1 (-3) 5 7 = [100] :=
  ⟨by norm_num,
    simulate_ST_negative_horizon_clamped (fun _ _ => 0) 100 0 1 (-3) 5 7 (by norm_num)⟩

/-- C8: the randomness of the simulator is confined to the stream of normal
draws selected by the seed (`randn seed` models
`np.random.seed(seed); np.random.randn(...)`).  Any two calls whose seeded
streams agree — in particular two calls against the very same generator —
return identical results, both for `simulate_ST` and for the Monte Carlo
analytics (which uses the fixed default seed 42). -/
theorem mc_deterministic (randn randn2 : ℕ → ℕ → ℝ) (legs : List (Leg ℝ))
    (S0 mu sigma T_days : ℝ) (n_sims seed : ℕ)
    (h1 : ∀ i, randn seed i = randn2 seed i)
    (h2 : ∀ i, randn 42 i = randn2 42 i) :
    simulate_ST randn S0 mu sigma T_days n_sims seed =
      simulate_ST randn2 S0 mu sigma T_days n_sims seed ∧
    expected_metrics_via_mc randn legs S0 mu sigma T_days n_sims =
      expected_metrics_via_mc randn2 legs S0 mu sigma T_days n_sims := by
  have key : ∀ s : ℕ, (∀ i, randn s i = randn2 s i) →
      simulate_ST randn S0 mu sigma T_days n_sims s =
        simulate_ST randn2 S0 mu sigma T_days n_sims s := by
    intro s hs
    unfold simulate_ST
    by_cases hT : max T_days 0 / 252 = 0
    · rw [if_pos hT, if_pos hT]
    · rw [if_neg hT, if_neg hT]
      refine List.map_congr_left fun i _ => ?_
      rw [hs i]
  refine ⟨key seed h1, ?_⟩
  have hp : sim_payoffs randn legs S0 mu sigma T_days n_sims =
      sim_payoffs randn2 legs S0 mu sigma T_days n_sims := by
    unfold sim_payoffs
    rw [key 42 h2]
  unfold expected_metrics_via_mc
  rw [hp]

/-- Witness for C8: two calls with the same generator and seed. -/
theorem mc_deterministic_witness :
    simulate_ST (fun _ _ => 0) 100 0 1 5 10 3 =
      simulate_ST (fun _ _ => 0) 100 0 1 5 10 3 ∧
    expected_metrics_via_mc (fun _ _ => 0) [] 100 0 1 5 10 =
      expected_metrics_via_mc (fun _ _ => 0) [] 100 0 1 5 10 :=
  mc_deterministic (fun _ _ => 0) (fun _ _ => 0) [] 100 0 1 5 10 3
    (fun _ => rfl) (fun _ => rfl)

/-- C1 counterexample: `combined_payoff` does not fail on a leg whose type
is neither `"C"` nor `"P"` — the leg with unrecognized type `"X"` is
silently evaluated as a put (here contributing `max(5-3,0) - 0 = 2`), so no
`InvalidLeg` error exists. -/
theorem combined_payoff_unknown_type_no_failure :
    combined_payoff (3 : ℚ) [⟨"X", 5, 0, 1, true⟩] = 2 := by
  norm_num [combined_payoff, leg_payoff, put_payoff, call_payoff]
  decide

/-- C1 amended: a leg whose type is not `"C"` — including every
unrecognized type — is silently reinterpreted as a put: its contribution to
`combined_payoff` is exactly `put_payoff`; the call never fails and never
drops the leg. -/
theorem combined_payoff_unknown_type_treated_as_put (S : ℚ) (leg : Leg ℚ)
    (legs : List (Leg ℚ)) (h : leg.type ≠ "C") :
    combined_payoff S (leg :: legs) =
      put_payoff S leg.K leg.premium leg.qty leg.long + combined_payoff S legs := by
  rw [combined_payoff_cons]
  simp [leg_payoff, h]

/-- Witness for C1 amended at the unrecognized type `"X"`. -/
theorem combined_payoff_unknown_type_treated_as_put_witness :
    (Leg.type (α := ℚ) ⟨"X", 5, 0, 1, true⟩ ≠ "C") ∧
    combined_payoff (3 : ℚ) (⟨"X", 5, 0, 1, true⟩ :: []) =
      put_payoff (3 : ℚ) 5 0 1 true + combined_payoff (3 : ℚ) [] :=
  ⟨by decide, combined_payoff_unknown_type_treated_as_put 3 ⟨"X", 5, 0, 1, true⟩ [] (by decide)⟩

/-- C2 counterexample: at `K = 100`, call premium `10`, quantity `1`, the
claimed legs — short call at `max(1, K+200) = 300` — differ from the code,
which computes the short strike as `max(1, K-200) + 400 = 401`. -/
theorem bullCallSpread_claimed_legs_refuted :
    (build_strategy_from_radio "BullCallSpread" 100 10 20 1).1 ≠
      [⟨"C", 1, 9, 1, true⟩, ⟨"C", 300, 5, 1, false⟩] := by
  unfold build_strategy_from_radio
  rw [if_neg (by decide), if_neg (by decide), if_neg (by decide), if_pos rfl]
  simp only [ne_eq, List.cons.injEq, Leg.mk.injEq]
  norm_num

/-- C2 amended: `BullCallSpread` returns exactly two legs — a long call at
`K_buy = max(1, K-200)` with premium `0.9 × call premium`, and a short call
at `K_buy + 400` (which equals `K+200` only when `K-200 ≥ 1`) with premium
`0.5 × call premium`, both at quantity `q`.  Only the lower strike is
clamped; the upper strike is the clamped lower strike plus 400. -/
theorem bullCallSpread_legs (K p_call p_put qty : ℚ) :
    (build_strategy_from_radio "BullCallSpread" K p_call p_put qty).1 =
      [⟨"C", max 1 (K - 200), p_call * 0.9, qty, true⟩,
       ⟨"C", max 1 (K - 200) + 400, p_call * 0.5, qty, false⟩] := by
  unfold build_strategy_from_radio
  rw [if_neg (by decide), if_neg (by decide), if_neg (by decide), if_pos rfl]

/-- C3 counterexample: at `K = 200`, call premium `10`, put premium `20`,
quantity `1`, the claimed legs — long put at `K-400 = -200` — differ from
the code, which clamps the put strike to `max(1, K-400) = 1`. -/
theorem strangle_claimed_legs_refuted :
    (build_strategy_from_radio "Strangle" 200 10 20 1).1 ≠
      [⟨"P", -200, 12, 1, true⟩, ⟨"C", 600, 6, 1, true⟩] := by
  unfold build_strategy_from_radio
  rw [if_neg (by decide), if_pos rfl]
  simp only [ne_eq, List.cons.injEq, Leg.mk.injEq]
  norm_num

/-- C3 amended: `Strangle` returns exactly two legs — a long put at
`max(1, K-400)` (the spec's `K-400`, but clamped to a minimum of 1) with
premium `0.6 × put premium`, and a long call at `K+400` with premium
`0.6 × call premium`, both at quantity `q` — together with a label that
embeds both strikes. -/
theorem strangle_legs_and_label (K p_call p_put qty : ℚ) :
    build_strategy_from_radio "Strangle" K p_call p_put qty =
      ([⟨"P", max 1 (K - 400), p_put * 0.6, qty, true⟩,
        ⟨"C", K + 400, p_call * 0.6, qty, true⟩],
       "Long Strangle (" ++ toString (max 1 (K - 400)) ++ "/" ++
         toString (K + 400) ++ ")") := by
  unfold build_strategy_from_radio
  rw [if_neg (by decide), if_pos rfl]

/-- C4 counterexample: a call of the Price Simulator with non-positive
volatility (`sigma = 0`) is not rejected — the simulation runs and returns
`n_sims` prices (here `[100, 100]`): no `InvalidParameters` validation
exists at the boundary. -/
theorem simulate_ST_accepts_nonpositive_sigma :
    simulate_ST (fun _ _ => 0) 100 0 0 252 2 42 = [100, 100] := by
  unfold simulate_ST
  rw [if_neg (by rw [horizon_zero_iff]; norm_num)]
  norm_num [List.range_succ]

/-- C4 amended: neither `simulate_ST` nor the analytics layer validates its
parameters.  With non-positive volatility the call still succeeds: a
non-positive horizon yields `[S0]` and a positive horizon yields the full
list of `n_sims` simulated prices; a negative horizon is clamped rather
than rejected (see `simulate_ST_negative_horizon_clamped`). -/
theorem simulate_ST_no_parameter_validation (randn : ℕ → ℕ → ℝ)
    (S0 mu sigma T_days : ℝ) (n_sims seed : ℕ) (_hsig : sigma ≤ 0) :
    (T_days ≤ 0 → simulate_ST randn S0 mu sigma T_days n_sims seed = [S0]) ∧
    (0 < T_days →
      (simulate_ST randn S0 mu sigma T_days n_sims seed).length = n_sims) := by
  constructor
  · intro h
    unfold simulate_ST
    rw [if_pos ((horizon_zero_iff T_days).mpr h)]
  · intro h
    unfold simulate_ST
    rw [if_neg fun hc => absurd ((horizon_zero_iff T_days).mp hc) (not_le.mpr h)]
    rw [List.length_map, List.length_range]

/-- Witness for C4 amended: `sigma = 0`, positive horizon. -/
theorem simulate_ST_no_parameter_validation_witness :
    (0 : ℝ) ≤ 0 ∧ (0 : ℝ) < 252 ∧
    (simulate_ST (fun _ _ => 0) 100 0 0 252 7 42).length = 7 :=
  ⟨le_refl 0, by norm_num,
    (simulate_ST_no_parameter_validation (fun _ _ => 0) 100 0 0 252 7 42
      (le_refl 0)).2 (by norm_num)⟩

/-- C5: `simulate_ST` computes `T = max(T_days, 0)/252`; when `T = 0` it
returns exactly `[S0]`, and otherwise it returns `n_sims` prices whose
`i`-th element is `S0 * exp((mu - 0.5*sigma^2)*T + sigma*sqrt(T)*Z_i)`,
where `Z_i = randn seed i` is the `i`-th standard-normal draw of that
call's seeded stream. -/
theorem simulate_ST_gbm_formula (randn : ℕ → ℕ → ℝ) (S0 mu sigma T_days : ℝ)
    (n_sims seed : ℕ) :
    (max T_days 0 / 252 = 0 →
      simulate_ST randn S0 mu sigma T_days n_sims seed = [S0]) ∧
    (max T_days 0 / 252 ≠ 0 →
      (simulate_ST randn S0 mu sigma T_days n_sims seed).length = n_sims ∧
      ∀ i, i < n_sims →
        (simulate_ST randn S0 mu sigma T_days n_sims seed).getD i 0 =
          S0 * Real.exp ((mu - 0.5 * sigma ^ 2) * (max T_days 0 / 252) +
            sigma * Real.sqrt (max T_days 0 / 252) * randn seed i)) := by
  constructor
  · intro h
    unfold simulate_ST
    rw [if_pos h]
  · intro h
    unfold simulate_ST
    rw [if_neg h]
    refine ⟨by rw [List.length_map, List.length_range], fun i hi => ?_⟩
    exact getD_map_range _ 0 n_sims i hi

/-- Witness for C5: the degenerate zero-horizon branch at `S0 = 100`. -/
theorem simulate_ST_gbm_formula_witness :
    max (0 : ℝ) 0 / 252 = 0 ∧
    simulate_ST (fun _ _ => 0) 100 0 1 0 5 3 = [100] :=
  ⟨by norm_num,
    (simulate_ST_gbm_formula (fun _ _ => 0) 100 0 1 0 5 3).1 (by norm_num)⟩

lemma simulate_ST_length_pos (randn : ℕ → ℕ → ℝ) (S0 mu sigma T_days : ℝ)
    (n_sims seed : ℕ) (h : 0 < n_sims) :
    0 < (simulate_ST randn S0 mu sigma T_days n_sims seed).length := by
  unfold simulate_ST
  by_cases hT : max T_days 0 / 252 = 0
  · rw [if_pos hT]; simp
  · rw [if_neg hT]; simpa using h

lemma countP_sign_trichotomy (l : List ℝ) :
    (l.countP fun x => decide (0 < x)) + (l.countP fun x => decide (x < 0)) +
      (l.countP fun x => decide (x = 0)) = l.length := by
  induction l with
  | nil => simp
  | cons a l ih =>
      simp only [List.countP_cons, List.length_cons]
      rcases lt_trichotomy a 0 with ha | ha | ha
      · rw [decide_eq_false (by linarith), decide_eq_true ha,
          decide_eq_false (by linarith)]
        simpa using by omega
      · rw [decide_eq_false (by linarith), decide_eq_false (by linarith),
          decide_eq_true ha]
        simpa using by omega
      · rw [decide_eq_true ha, decide_eq_false (by linarith),
          decide_eq_false (by linarith)]
        simpa using by omega

/-- C6: the Monte Carlo analytics report `prob_profit` as the fraction of
sampled payoffs strictly greater than 0 and `downside_pct` as the fraction
strictly less than 0, so payoffs exactly 0 count toward neither.  Both
fractions lie in `[0, 1]`, their sum never exceeds 1, and the sum is
strictly below 1 exactly when some sampled payoff is exactly 0. -/
theorem expected_metrics_prob_fractions (randn : ℕ → ℕ → ℝ)
    (legs : List (Leg ℝ)) (S0 mu sigma T_days : ℝ) (n_sims : ℕ)
    (h : 0 < n_sims) :
    (expected_metrics_via_mc randn legs S0 mu sigma T_days n_sims).prob_profit =
      ((sim_payoffs randn legs S0 mu sigma T_days n_sims).countP
          fun x => decide (0 < x)) /
        (sim_payoffs randn legs S0 mu sigma T_days n_sims).length ∧
    (expected_metrics_via_mc randn legs S0 mu sigma T_days n_sims).downside_pct =
      ((sim_payoffs randn legs S0 mu sigma T_days n_sims).countP
          fun x => decide (x < 0)) /
        (sim_payoffs randn legs S0 mu sigma T_days n_sims).length ∧
    0 ≤ (expected_metrics_via_mc randn legs S0 mu sigma T_days n_sims).prob_profit ∧
    (expected_metrics_via_mc randn legs S0 mu sigma T_days n_sims).prob_profit ≤ 1 ∧
    0 ≤ (expected_metrics_via_mc randn legs S0 mu sigma T_days n_sims).downside_pct ∧
    (expected_metrics_via_mc randn legs S0 mu sigma T_days n_sims).downside_pct ≤ 1 ∧
    (expected_metrics_via_mc randn legs S0 mu sigma T_days n_sims).prob_profit +
        (expected_metrics_via_mc randn legs S0 mu sigma T_days n_sims).downside_pct ≤ 1 ∧
    ((expected_metrics_via_mc randn legs S0 mu sigma T_days n_sims).prob_profit +
        (expected_metrics_via_mc randn legs S0 mu sigma T_days n_sims).downside_pct < 1 ↔
      ∃ p ∈ sim_payoffs randn legs S0 mu sigma T_days n_sims, p = 0) := by
  set P := sim_payoffs randn legs S0 mu sigma T_days n_sims with hP
  have hlen : 0 < P.length := by
    rw [hP]
    unfold sim_payoffs
    rw [List.length_map]
    exact simulate_ST_length_pos randn S0 mu sigma T_days n_sims 42 h
  have hL : (0 : ℝ) < (P.length : ℝ) := by exact_mod_cast hlen
  have hpp : (expected_metrics_via_mc randn legs S0 mu sigma T_days n_sims).prob_profit =
      ((P.countP fun x => decide (0 < x)) : ℝ) / (P.length : ℝ) := by
    rw [hP]; rfl
  have hdp : (expected_metrics_via_mc randn legs S0 mu sigma T_days n_sims).downside_pct =
      ((P.countP fun x => decide (x < 0)) : ℝ) / (P.length : ℝ) := by
    rw [hP]; rfl
  have key := countP_sign_trichotomy P
  have hcp_le : P.countP (fun x => decide (0 < x)) ≤ P.length :=
    List.countP_le_length _
  have hcn_le : P.countP (fun x => decide (x < 0)) ≤ P.length :=
    List.countP_le_length _
  have hsum_le : P.countP (fun x => decide (0 < x)) +
      P.countP (fun x => decide (x < 0)) ≤ P.length := by omega
  refine ⟨hpp, hdp, ?_, ?_, ?_, ?_, ?_, ?_⟩
  · rw [hpp]; positivity
  · rw [hpp]
    rw [div_le_one hL]
    exact_mod_cast hcp_le
  · rw [hdp]; positivity
  · rw [hdp]
    rw [div_le_one hL]
    exact_mod_cast hcn_le
  · rw [hpp, hdp, div_add_div_same, div_le_one hL]
    exact_mod_cast hsum_le
  · rw [hpp, hdp, div_add_div_same, div_lt_one hL]
    have hcast : (((P.countP fun x => decide (0 < x)) : ℝ) +
        ((P.countP fun x => decide (x < 0)) : ℝ) < (P.length : ℝ)) ↔
        P.countP (fun x => decide (0 < x)) +
          P.countP (fun x => decide (x < 0)) < P.length := by
      exact_mod_cast Iff.rfl
    rw [hcast]
    constructor
    · intro hlt
      have hz : 0 < P.countP fun x => decide (x = 0) := by omega
      obtain ⟨p, hp, hp0⟩ := List.countP_pos_iff.mp hz
      exact ⟨p, hp, of_decide_eq_true hp0⟩
    · rintro ⟨p, hp, hp0⟩
      have hz : 0 < P.countP fun x => decide (x = 0) :=
        List.countP_pos_iff.mpr ⟨p, hp, decide_eq_true hp0⟩
      omega

/-- Witness for C6: empty legs list, zero horizon, one sample; the sampled
payoff is exactly 0, so the two fractions sum to 0 ≤ 1. -/
theorem expected_metrics_prob_fractions_witness :
    0 < 1 ∧
    (expected_metrics_via_mc (fun _ _ => 0) [] 100 0 1 0 1).prob_profit +
      (expected_metrics_via_mc (fun _ _ => 0) [] 100 0 1 0 1).downside_pct ≤ 1 :=
  ⟨Nat.one_pos,
    (expected_metrics_prob_fractions (fun _ _ => 0) [] 100 0 1 0 1
      Nat.one_pos).2.2.2.2.2.2.1⟩

lemma be_at_cons_succ (x0 y0 : ℚ) (S Y : List ℚ) (i : ℕ) :
    be_at (x0 :: S) (y0 :: Y) (i + 1) = be_at S Y i := by
  simp only [be_at, List.getD_cons_succ]

lemma be_at_cons_zero (x0 x1 y0 y1 : ℚ) (s t : List ℚ) :
    be_at (x0 :: x1 :: s) (y0 :: y1 :: t) 0 =
      if sign y1 ≠ sign y0 then some (be_point x0 x1 y0 y1) else none := by
  simp only [be_at, be_point, List.getD_cons_succ, List.getD_cons_zero]

lemma findBreakevens_spec_cons (x0 x1 y0 y1 : ℚ) (s t : List ℚ) :
    findBreakevens_spec (x0 :: x1 :: s) (y0 :: y1 :: t) =
      (if sign y1 ≠ sign y0 then [be_point x0 x1 y0 y1] else []) ++
        findBreakevens_spec (x1 :: s) (y1 :: t) := by
  unfold findBreakevens_spec
  simp only [List.length_cons, Nat.add_sub_cancel]
  rw [List.range_succ_eq_map, List.filterMap_cons, List.filterMap_map]
  have h1 : be_at (x0 :: x1 :: s) (y0 :: y1 :: t) ∘ Nat.succ =
      be_at (x1 :: s) (y1 :: t) :=
    funext fun i => be_at_cons_succ x0 y0 (x1 :: s) (y1 :: t) i
  rw [h1, be_at_cons_zero]
  by_cases hc : sign y1 = sign y0
  · simp [hc]
  · simp [hc]

lemma breakevens_eq_spec (S Y : List ℚ) (h : S.length = Y.length) :
    breakevens S Y = findBreakevens_spec S Y := by
  induction Y generalizing S with
  | nil =>
      cases S with
      | nil => simp [breakevens, findBreakevens_spec]
      | cons x s => simp at h
  | cons y0 Ytail ih =>
      cases Ytail with
      | nil =>
          cases S with
          | nil => simp at h
          | cons x0 Stail =>
              cases Stail with
              | nil => simp [breakevens, findBreakevens_spec]
              | cons x1 Stail2 => simp at h
      | cons y1 Ytail2 =>
          cases S with
          | nil => simp at h
          | cons x0 Stail =>
              cases Stail with
              | nil => simp at h
              | cons x1 Stail2 =>
                  have h2 : (x1 :: Stail2).length = (y1 :: Ytail2).length := by
                    simpa using h
                  rw [breakevens, ih (x1 :: Stail2) h2, findBreakevens_spec_cons]

/-- C7: for equal-length grids, `breakevens` returns exactly the
linear-interpolation roots described index-wise by the spec
(`findBreakevens_spec`): one root per adjacent index pair with a sign
change, `be = x0 - y0*(x1-x0)/(y1-y0)` (falling back to `x0` when
`y1 = y0`), emitted in ascending grid order; and when no adjacent sign
change exists — in particular when the curve never crosses zero — the
result is empty.  The function is total: it never fails. -/
theorem breakevens_correct (S Y : List ℚ) (h : S.length = Y.length) :
    breakevens S Y = findBreakevens_spec S Y ∧
    ((∀ i, i + 1 < Y.length → sign (Y.getD (i + 1) 0) = sign (Y.getD i 0)) →
      breakevens S Y = []) := by
  refine ⟨breakevens_eq_spec S Y h, fun hno => ?_⟩
  rw [breakevens_eq_spec S Y h]
  unfold findBreakevens_spec
  rw [List.filterMap_eq_nil_iff]
  intro i hi
  rw [List.mem_range] at hi
  unfold be_at
  rw [if_neg]
  simp only [ne_eq, not_not]
  exact hno i (by omega)

/-- Witness for C7 on the grid `[1, 2]` with payoffs `[-1, 1]`. -/
theorem breakevens_correct_witness :
    ([1, 2] : List ℚ).length = ([-1, 1] : List ℚ).length ∧
    breakevens [1, 2] [-1, 1] = findBreakevens_spec [1, 2] [-1, 1] :=
  ⟨rfl, (breakevens_correct [1, 2] [-1, 1] rfl).1⟩
